import Mathlib

/-!
Verification of the DBnomics GitLab-CI dashboard aggregation engine
(`dashboard/generate-dashboard.py` and `ls-providers.py`).

The Python functions are shallowly embedded: traces are `String`s, job
records become a `Job` structure, fallible Python code (assertions,
`KeyError`, GitLab API errors) returns `Except PyError`.
-/

namespace Dashboard

/-- The Python exceptions the dashboard code can raise:
`AssertionError` (from `assert` statements), `KeyError` (indexing the
job-type dict with an unknown key), and `gitlab.exceptions.GitlabGetError`
(raised by `job.trace()` when the trace is missing upstream). -/
inductive PyError where
  | assertionError : PyError
  | keyError : String → PyError
  | gitlabGetError : PyError
deriving DecidableEq, Repr

deriving instance DecidableEq for Except

/-- A GitLab CI job record, with the fields the dashboard reads.
`traceResult` models the outcome of calling `job.trace()`: either the
decoded trace text or a `GitlabGetError`. Timestamp fields are optional
strings, as in the GitLab API (Python `None` becomes `none`). -/
structure Job where
  id : Nat
  status : String
  created_at : Option String
  started_at : Option String
  finished_at : Option String
  duration : Option Nat
  ref : String
  traceResult : Except Unit String
deriving DecidableEq, Repr

/-! ### The regex scanner

`re.findall(pattern, trace)` for the two patterns used by the classifiers,
`'Running job ([^$ ]+)'` and `'Importing provider ([^$. ]+)'`: a literal
prefix followed by a greedy, non-empty run of characters outside the
excluded set.  The scanner walks the trace left to right; on a successful
match it resumes after the matched token, on a failed attempt it advances
one character. -/

/-- Strip a literal pattern from the front of a character list; `none` if
it is not a prefix. -/
def dropLiteral : List Char → List Char → Option (List Char)
  | [], s => some s
  | _ :: _, [] => none
  | p :: ps, c :: cs => if p = c then dropLiteral ps cs else none

/-- One fuel unit is spent per character position scanned; `fuel = s.length`
always suffices because every recursive call strictly shrinks the input. -/
def findAllAux (pat : List Char) (tokChar : Char → Bool) :
    Nat → List Char → List (List Char)
  | 0, _ => []
  | _, [] => []
  | fuel + 1, c :: cs =>
    match dropLiteral pat (c :: cs) with
    | some rest =>
      let tok := rest.takeWhile tokChar
      if tok.isEmpty then findAllAux pat tokChar fuel cs
      else tok :: findAllAux pat tokChar fuel (rest.dropWhile tokChar)
    | none => findAllAux pat tokChar fuel cs

/-- All captured groups of the pattern in the trace, left to right. -/
def findallMatches (pat : List Char) (tokChar : Char → Bool) (s : String) :
    List String :=
  (findAllAux pat tokChar s.data.length s.data).map List.asString

/-- Character class `[^$ ]` of the fetcher pattern. -/
def fetcherTokChar (c : Char) : Bool := c ≠ '$' && c ≠ ' '

/-- Character class `[^$. ]` of the importer pattern. -/
def importerTokChar (c : Char) : Bool := c ≠ '$' && c ≠ '.' && c ≠ ' '

/-- `re.findall('Running job ([^$ ]+)', job_trace)`. -/
def findall_running_job (job_trace : String) : List String :=
  findallMatches "Running job ".data fetcherTokChar job_trace

/-- `re.findall('Importing provider ([^$. ]+)', job_trace)`. -/
def findall_importing_provider (job_trace : String) : List String :=
  findallMatches "Importing provider ".data importerTokChar job_trace

/-! ### The two trace classifiers -/

/-- `get_fetcher_job_variables` — returns the `JOB` variable extracted from
the trace.  A `GitlabGetError` from `job.trace()` is caught and yields
`None`; `assert len(values) <= 1` raises on two or more matches; no match
yields `None`, otherwise the single matched token. -/
def get_fetcher_job_variables (job : Job) : Except PyError (Option String) :=
  match job.traceResult with
  | .error _ => .ok none
  | .ok job_trace =>
    let values := findall_running_job job_trace
    if values.length > 1 then .error .assertionError
    else
      match values with
      | [] => .ok none
      | v :: _ => .ok (some v)

/-- `get_importer_job_variables` — returns the `PROVIDER_SLUG` variable.
Unlike the fetcher variant there is no `try`/`except`, so a trace fetch
error propagates; `assert len(values) <= 1` raises on two or more matches;
the result is `values[0] if values else None`. -/
def get_importer_job_variables (job : Job) : Except PyError (Option String) :=
  match job.traceResult with
  | .error _ => .error .gitlabGetError
  | .ok job_trace =>
    let values := findall_importing_provider job_trace
    if values.length > 1 then .error .assertionError
    else .ok values.head?

/-! ### Schedule resolver -/

/-- A pipeline schedule record, with the fields the dashboard reads. -/
structure PipelineSchedule where
  id : Nat
  active : Bool
  next_run_at : String
  cron : String
deriving DecidableEq, Repr

/-- `get_pipeline_schedule` — `assert len(pipeline_schedules) <= 1`, then
`pipeline_schedules[0] if pipeline_schedules else None`. -/
def get_pipeline_schedule (pipeline_schedules : List PipelineSchedule) :
    Except PyError (Option PipelineSchedule) :=
  if pipeline_schedules.length ≤ 1 then .ok pipeline_schedules.head?
  else .error .assertionError

/-! ### Status derivation and the rendered markers -/

/-- Python truthiness of an optional string: `None` and `""` are falsy. -/
def pyTruthy : Option String → Bool
  | none => false
  | some s => !(s == "")

/-- The `job_status` local of `format_job_link`: the raw status, except
that a job with no `started_at` is reclassified as `"stuck"`. -/
def derived_job_status (job : Job) : String :=
  if pyTruthy job.started_at then job.status else "stuck"

/-- The `i_classes` icon chosen by `format_job_link` from the derived
status (Font Awesome class names from the if/elif chain). -/
def job_i_classes (job_status : String) : String :=
  if job_status = "running" then "fa-clock text-info"
  else if job_status = "failed" then "fa-exclamation-circle text-danger"
  else if job_status = "stuck" then "fa-exclamation-circle text-dark"
  else if job_status = "canceled" then "fa-minus-circle text-dark"
  else "fa-check-circle text-success"

/-- The icon chosen by `format_pipeline_schedule_link`: a warning triangle
when the schedule does not exist, otherwise check/times by active flag. -/
def schedule_i_class : Option PipelineSchedule → String
  | none => "fa-exclamation-triangle text-danger"
  | some ps => if ps.active then "fa-check text-success" else "fa-times text-warning"

/-- The data of a rendered `<a><i/></a>` marker: its link target and the
Font Awesome classes of its icon. -/
structure Anchor where
  href : String
  i_classes : String
deriving DecidableEq, Repr

/-- The project jobs page URL built in `format_fetcher_tr` from
`args.gitlab_base_url` and `project.path_with_namespace`. -/
def fetcher_jobs_url (gitlab_base_url path_with_namespace : String) : String :=
  gitlab_base_url ++ "/" ++ path_with_namespace ++ "/-/jobs"

/-- The marker rendered by `format_job_link` for one job. -/
def format_job_link (gitlab_base_url path_with_namespace : String) (job : Job) :
    Anchor :=
  { href := gitlab_base_url ++ "/" ++ path_with_namespace ++ "/-/jobs/" ++
      toString job.id,
    i_classes := job_i_classes (derived_job_status job) }

/-- The markers in one job cell of `format_fetcher_tr`: a marker per job,
or, when the bucket is empty, a single question-mark marker that links to
the project jobs page. -/
def job_cell_links (gitlab_base_url path_with_namespace : String)
    (jobs : List Job) : List Anchor :=
  if jobs.isEmpty then
    [{ href := fetcher_jobs_url gitlab_base_url path_with_namespace,
       i_classes := "fa-question-circle text-warning" }]
  else jobs.map (format_job_link gitlab_base_url path_with_namespace)

/-! ### Provider enumeration (`main` and `ls-providers.py`) -/

/-- The allow-list test `(not args.providers or
group_project.name[:-len("-fetcher")] in args.providers)`: `args.providers`
is `None` when the option is absent, and Python's `not` also accepts an
empty list. -/
def allow_list_ok (providers : Option (List String)) (slug : String) : Bool :=
  match providers with
  | none => true
  | some ps => ps.isEmpty || decide (slug ∈ ps)

/-- Python `s.endswith(suffix)`, over the character data. -/
def py_endswith (s suffix : String) : Bool := List.isSuffixOf suffix.data s.data

/-- Python `s.startswith(p)`, over the character data. -/
def py_startswith (s p : String) : Bool := List.isPrefixOf p.data s.data

/-- The filter of `main` over group project names: keep `-fetcher` suffixed
names, drop `dummy`-prefixed ones, and apply the allow-list to the slug
`name[:-len("-fetcher")]`. -/
def fetcher_name_filter (providers : Option (List String)) (name : String) :
    Bool :=
  py_endswith name "-fetcher" && !py_startswith name "dummy" &&
    allow_list_ok providers (name.dropRight "-fetcher".length)

/-- Lexicographic comparison of character lists, the order underlying the
`order_by="name", sort="asc"` group listing. -/
def lexLe : List Char → List Char → Bool
  | [], _ => true
  | _ :: _, [] => false
  | a :: as, b :: bs =>
    if a < b then true
    else if a = b then lexLe as bs
    else false

/-- Name-ascending order on project names. -/
def NameLe (a b : String) : Prop := lexLe a.data b.data = true

instance : DecidableRel NameLe :=
  fun a b => inferInstanceAs (Decidable (lexLe a.data b.data = true))

/-- The fetcher-project names selected by `main`: the group listing is
requested with `order_by="name", sort="asc"` (modelled by sorting the raw
names), then filtered. -/
def enumerate_fetchers (providers : Option (List String)) (names : List String) :
    List String :=
  (List.insertionSort NameLe names).filter (fetcher_name_filter providers)

/-- The provider slugs of the selected fetcher projects, in order. -/
def enumerate_provider_slugs (providers : Option (List String))
    (names : List String) : List String :=
  (enumerate_fetchers providers names).map (·.dropRight "-fetcher".length)

/-! ### Job bucketing (`get_fetcher_jobs_by_type` in `main`) -/

/-- The download/convert buckets, `{"download": [], "convert": []}`. -/
structure Buckets where
  download : List Job
  convert : List Job
deriving DecidableEq, Repr

def empty_buckets : Buckets := ⟨[], []⟩

/-- `fetcher_jobs_by_type[job_type].append(job)`: the dict has exactly the
keys `"download"` and `"convert"`, so any other key raises `KeyError`. -/
def bucket_insert (b : Buckets) (job_type : String) (job : Job) :
    Except PyError Buckets :=
  if job_type = "download" then .ok ⟨b.download ++ [job], b.convert⟩
  else if job_type = "convert" then .ok ⟨b.download, b.convert ++ [job]⟩
  else .error (.keyError job_type)

/-- The loop of `get_fetcher_jobs_by_type` over the project's jobs,
threading the bucket dict: skip jobs off `master` unless `--all-branches`;
classify via `get_fetcher_job_variables` (`or {}` turns `None` into an
empty dict, whose `.get("JOB")` is `None`, skipping the job); append the
job to the bucket named by its type. -/
def jobs_by_type_loop (all_branches : Bool) :
    List Job → Buckets → Except PyError Buckets
  | [], b => .ok b
  | job :: jobs, b =>
    if !all_branches && !(job.ref == "master") then
      jobs_by_type_loop all_branches jobs b
    else
      match get_fetcher_job_variables job with
      | .error e => .error e
      | .ok none => jobs_by_type_loop all_branches jobs b
      | .ok (some job_type) =>
        match bucket_insert b job_type job with
        | .error e => .error e
        | .ok b' => jobs_by_type_loop all_branches jobs b'

/-- `get_fetcher_jobs_by_type` applied to a project's job list. -/
def get_fetcher_jobs_by_type (all_branches : Bool) (jobs : List Job) :
    Except PyError Buckets :=
  jobs_by_type_loop all_branches jobs empty_buckets

/-! ### Solr enrichment (`format_fetcher_tr`) -/

/-- A Solr provider document; the dashboard only reads its `code`. -/
structure SolrDoc where
  code : String
deriving DecidableEq, Repr

/-- The `provider_solr` local of `format_fetcher_tr`: `None` on zero
matches, `None` on more than one match, else the single document. -/
def provider_solr_of_results (docs : List SolrDoc) : Option SolrDoc :=
  if docs.isEmpty then none
  else if 1 < docs.length then none
  else docs.head?

/-- The `nb_datasets` and `nb_series` locals: counting queries issued only
when `provider_solr` resolved; `hits_datasets`/`hits_series` stand for the
Solr hit counts keyed by provider code. -/
def solr_counts (hits_datasets hits_series : String → Nat)
    (docs : List SolrDoc) : Option Nat × Option Nat :=
  match provider_solr_of_results docs with
  | none => (none, none)
  | some d => (some (hits_datasets d.code), some (hits_series d.code))

/-- A count cell of the report row:
`humanfriendly.format_number(nb) if nb is not None else "?"`; `fmt` stands
for the external `format_number`. -/
def render_count (fmt : Nat → String) : Option Nat → String
  | some n => fmt n
  | none => "?"

/-! ### Order lemmas for the name ordering -/

theorem lexLe_total (as : List Char) :
    ∀ bs, lexLe as bs = true ∨ lexLe bs as = true := by
  induction as with
  | nil => intro bs; left; rfl
  | cons a as ih =>
    intro bs
    cases bs with
    | nil => right; rfl
    | cons b bs =>
      rcases lt_trichotomy a b with h | h | h
      · left; simp [lexLe, h]
      · subst h
        rcases ih bs with h' | h' <;> simp [lexLe, lt_irrefl, h']
      · right; simp [lexLe, h]

theorem lexLe_trans (as : List Char) :
    ∀ bs cs, lexLe as bs = true → lexLe bs cs = true → lexLe as cs = true := by
  induction as with
  | nil => intros; rfl
  | cons a as ih =>
    intro bs cs h1 h2
    cases bs with
    | nil => simp [lexLe] at h1
    | cons b bs =>
      cases cs with
      | nil => simp [lexLe] at h2
      | cons c cs =>
        by_cases hab : a < b
        · by_cases hbc : b < c
          · simp [lexLe, lt_trans hab hbc]
          · by_cases hbc' : b = c
            · subst hbc'; simp [lexLe, hab]
            · simp [lexLe, hbc, hbc'] at h2
        · by_cases hab' : a = b
          · subst hab'
            by_cases hbc : a < c
            · simp [lexLe, hbc]
            · by_cases hbc' : a = c
              · subst hbc'
                simp [lexLe, lt_irrefl] at h1 h2 ⊢
                exact ih bs cs h1 h2
              · simp [lexLe, hbc, hbc'] at h2
          · simp [lexLe, hab, hab'] at h1

theorem lexLe_antisymm (as : List Char) :
    ∀ bs, lexLe as bs = true → lexLe bs as = true → as = bs := by
  induction as with
  | nil =>
    intro bs h1 h2
    cases bs with
    | nil => rfl
    | cons b bs => simp [lexLe] at h2
  | cons a as ih =>
    intro bs h1 h2
    cases bs with
    | nil => simp [lexLe] at h1
    | cons b bs =>
      by_cases hab : a < b
      · by_cases hba : b < a
        · exact absurd (lt_trans hab hba) (lt_irrefl a)
        · by_cases hba' : b = a
          · subst hba'; exact absurd hab (lt_irrefl _)
          · simp [lexLe, hba, hba'] at h2
      · by_cases hab' : a = b
        · subst hab'
          simp [lexLe, lt_irrefl] at h1 h2
          rw [ih bs h1 h2]
        · simp [lexLe, hab, hab'] at h1

instance : IsTotal String NameLe := ⟨fun a b => lexLe_total a.data b.data⟩

instance : IsTrans String NameLe :=
  ⟨fun a b c => lexLe_trans a.data b.data c.data⟩

instance : IsAntisymm String NameLe :=
  ⟨fun a b h1 h2 => by
    have h := lexLe_antisymm a.data b.data h1 h2
    cases a; cases b
    exact congrArg String.mk h⟩

/-! ### Sample records used by witness theorems -/

/-- A download job on `master` with a complete set of timestamps. -/
def sampleDownloadJob : Job :=
  { id := 1, status := "success", created_at := some "2018-01-01T00:00:00Z",
    started_at := some "2018-01-01T00:01:00Z",
    finished_at := some "2018-01-01T00:02:00Z", duration := some 60,
    ref := "master", traceResult := .ok "Running job download" }

/-- A job whose trace was deleted upstream: `job.trace()` raises. -/
def missingTraceJob : Job :=
  { id := 2, status := "failed", created_at := none, started_at := none,
    finished_at := none, duration := none, ref := "master",
    traceResult := .error () }

/-- A job whose trace repeats the same `Running job` line twice. -/
def repeatedTraceJob : Job :=
  { sampleDownloadJob with
    id := 3,
    traceResult := .ok "Running job download Running job download" }

/-- A job classified with a token that is neither download nor convert. -/
def validateJob : Job :=
  { sampleDownloadJob with id := 4, traceResult := .ok "Running job validate" }

/-! ### Claim theorems -/

/-- C3: a job lacking a `started_at` timestamp derives status `"stuck"`
regardless of its raw reported status, and a job with a (non-empty)
`started_at` timestamp keeps its raw reported status unchanged. -/
theorem derived_job_status_stuck_policy (job : Job) :
    (job.started_at = none → derived_job_status job = "stuck") ∧
    (∀ s, job.started_at = some s → s ≠ "" →
      derived_job_status job = job.status) := by
  constructor
  · intro h
    simp [derived_job_status, pyTruthy, h]
  · intro s h hne
    simp [derived_job_status, pyTruthy, h, hne]

/-- C3 witness: a never-started failed job renders as stuck, a started one
keeps its status. -/
theorem derived_job_status_stuck_policy_witness :
    derived_job_status missingTraceJob = "stuck" ∧
    derived_job_status sampleDownloadJob = "success" :=
  ⟨(derived_job_status_stuck_policy missingTraceJob).1 rfl,
   (derived_job_status_stuck_policy sampleDownloadJob).2
      "2018-01-01T00:01:00Z" rfl (by decide)⟩

/-- C4: `get_pipeline_schedule` raises on a schedule list of length greater
than one, returns `none` on an empty list, and returns the schedule on a
singleton list. -/
theorem get_pipeline_schedule_cardinality (l : List PipelineSchedule) :
    (1 < l.length → get_pipeline_schedule l = .error .assertionError) ∧
    (l = [] → get_pipeline_schedule l = .ok none) ∧
    (∀ s, l = [s] → get_pipeline_schedule l = .ok (some s)) := by
  refine ⟨fun h => ?_, fun h => ?_, fun s h => ?_⟩
  · rw [get_pipeline_schedule, if_neg (by omega)]
  · subst h; rfl
  · subst h; rfl

/-- C4 witness: two schedules raise, zero give none, one is returned. -/
theorem get_pipeline_schedule_cardinality_witness :
    get_pipeline_schedule [⟨10, true, "n", "c"⟩, ⟨11, false, "n", "c"⟩] =
      .error .assertionError ∧
    get_pipeline_schedule [] = .ok none ∧
    get_pipeline_schedule [⟨10, true, "n", "c"⟩] = .ok (some ⟨10, true, "n", "c"⟩) :=
  ⟨(get_pipeline_schedule_cardinality _).1 (by decide),
   (get_pipeline_schedule_cardinality _).2.1 rfl,
   (get_pipeline_schedule_cardinality _).2.2 _ rfl⟩

/-- C6: with allow-list `["alpha","beta"]` and raw fetcher projects
`alpha-fetcher`, `beta-fetcher`, `gamma-fetcher`, the enumerated provider
slugs are exactly `["alpha","beta"]`, in that order. -/
theorem enumerate_allow_list_example :
    enumerate_provider_slugs (some ["alpha", "beta"])
      ["alpha-fetcher", "beta-fetcher", "gamma-fetcher"] = ["alpha", "beta"] := by
  decide

/-- C7: whenever the Solr lookup returns zero matches or more than one
match for a slug, both count cells of the report row render the unknown
marker `"?"` (whatever the number formatter does), and the row is still
produced (the functions are total, no error propagates). -/
theorem ambiguous_enrichment_renders_unknown
    (hits_datasets hits_series : String → Nat) (fmt : Nat → String)
    (docs : List SolrDoc) (h : docs.length ≠ 1) :
    render_count fmt (solr_counts hits_datasets hits_series docs).1 = "?" ∧
    render_count fmt (solr_counts hits_datasets hits_series docs).2 = "?" := by
  have hnone : provider_solr_of_results docs = none := by
    match docs with
    | [] => rfl
    | [d] => exact absurd rfl h
    | d1 :: d2 :: ds =>
      rw [provider_solr_of_results, if_neg (by simp),
        if_pos (by simp only [List.length_cons]; omega)]
  simp [solr_counts, hnone, render_count]

/-- C7 witness: zero matches for a slug render both counts as `"?"`. -/
theorem ambiguous_enrichment_renders_unknown_witness :
    render_count toString (solr_counts (fun _ => 0) (fun _ => 0) []).1 = "?" ∧
    render_count toString (solr_counts (fun _ => 0) (fun _ => 0) []).2 = "?" :=
  ambiguous_enrichment_renders_unknown (fun _ => 0) (fun _ => 0) toString []
    (by decide)

/-- C1 counterexample: a trace containing the same `Running job download`
line twice — two occurrences of one and the same token — makes
`get_fetcher_job_variables` raise its `AssertionError` instead of
returning the token, contrary to the claim that only *distinct* repeated
tokens raise. -/
theorem repeated_identical_token_raises :
    findall_running_job "Running job download Running job download" =
      ["download", "download"] ∧
    get_fetcher_job_variables repeatedTraceJob = .error .assertionError := by
  decide

/-- C1 (amended): on a fetched trace, `get_fetcher_job_variables` returns
the token on exactly one pattern occurrence, `none` on zero occurrences,
and raises an `AssertionError` on two or more occurrences — whether the
occurrences are distinct tokens or the same token repeated. -/
theorem get_fetcher_job_variables_match_policy (job : Job)
    (job_trace : String) (htrace : job.traceResult = .ok job_trace) :
    (findall_running_job job_trace = [] →
      get_fetcher_job_variables job = .ok none) ∧
    (∀ v, findall_running_job job_trace = [v] →
      get_fetcher_job_variables job = .ok (some v)) ∧
    (2 ≤ (findall_running_job job_trace).length →
      get_fetcher_job_variables job = .error .assertionError) := by
  refine ⟨fun h =>  ?_, fun v h => ?_, fun h => ?_⟩
  · simp [get_fetcher_job_variables, htrace, h]
  · simp [get_fetcher_job_variables, htrace, h]
  · simp only [get_fetcher_job_variables, htrace]
    rw [if_pos (by omega)]

/-- C1 witness: a single-occurrence trace classifies to its token. -/
theorem get_fetcher_job_variables_match_policy_witness :
    get_fetcher_job_variables sampleDownloadJob = .ok (some "download") :=
  (get_fetcher_job_variables_match_policy sampleDownloadJob
    "Running job download" rfl).2.1 "download" (by decide)

/-- Helper: when the loop of `get_fetcher_jobs_by_type` terminates without
raising, the final buckets extend the initial ones with exactly the jobs
on a considered branch whose trace classifies to the bucket's key, in
input order. -/
theorem jobs_by_type_loop_ok_eq (all_branches : Bool) :
    ∀ (jobs : List Job) (b0 b : Buckets),
      jobs_by_type_loop all_branches jobs b0 = .ok b →
      b.download = b0.download ++ jobs.filter (fun j =>
        (all_branches || j.ref == "master") &&
          decide (get_fetcher_job_variables j = .ok (some "download"))) ∧
      b.convert = b0.convert ++ jobs.filter (fun j =>
        (all_branches || j.ref == "master") &&
          decide (get_fetcher_job_variables j = .ok (some "convert"))) := by
  intro jobs
  induction jobs with
  | nil =>
    intro b0 b h
    simp only [jobs_by_type_loop, Except.ok.injEq] at h
    subst h
    simp
  | cons job jobs ih =>
    intro b0 b h
    simp only [jobs_by_type_loop] at h
    by_cases hskip : (!all_branches && !(job.ref == "master")) = true
    · rw [if_pos hskip] at h
      have hcons : (all_branches || job.ref == "master") = false := by
        revert hskip
        cases all_branches <;> cases hr : (job.ref == "master") <;> simp
      have hres := ih b0 b h
      simp only [List.filter_cons, hcons, Bool.false_and, Bool.false_eq_true,
        if_false]
      exact hres
    · rw [if_neg hskip] at h
      have hcons : (all_branches || job.ref == "master") = true := by
        revert hskip
        cases all_branches <;> cases hr : (job.ref == "master") <;> simp
      cases hv : get_fetcher_job_variables job with
      | error e => rw [hv] at h; cases h
      | ok o =>
        rw [hv] at h
        cases o with
        | none =>
          have hres := ih b0 b h
          simp only [List.filter_cons, hcons, hv, Bool.true_and]
          rw [if_neg (by simp), if_neg (by simp)]
          exact hres
        | some t =>
          by_cases ht : t = "download"
          · subst ht
            simp [bucket_insert] at h
            have hres := ih _ b h
            simp only [List.filter_cons, hcons, hv, Bool.true_and] at hres ⊢
            rw [if_pos (by simp), if_neg (by simp)]
            refine ⟨?_, hres.2⟩
            rw [hres.1]
            simp
          · by_cases ht2 : t = "convert"
            · subst ht2
              simp [bucket_insert] at h
              have hres := ih _ b h
              simp only [List.filter_cons, hcons, hv, Bool.true_and] at hres ⊢
              rw [if_neg (by simp), if_pos (by simp)]
              refine ⟨hres.1, ?_⟩
              rw [hres.2]
              simp
            · simp [bucket_insert, ht, ht2] at h

/-- C2 counterexample: for a job whose trace fetch raises,
`get_importer_job_variables` propagates the error instead of returning the
claimed `no classification`. -/
theorem importer_trace_error_propagates :
    get_importer_job_variables missingTraceJob ≠ .ok none ∧
    get_importer_job_variables missingTraceJob = .error .gitlabGetError := by
  decide

/-- C2 (amended): when the trace fetch raises, the fetcher-scoped
classifier returns `none` and the job lands in no type bucket, but the
importer-scoped classifier propagates the fetch error (there is no
`try`/`except` around its `job.trace()` call). -/
theorem trace_fetch_error_policy (job : Job)
    (h : job.traceResult = .error ()) :
    get_fetcher_job_variables job = .ok none ∧
    (∀ all_branches jobs b,
      get_fetcher_jobs_by_type all_branches jobs = .ok b →
        job ∉ b.download ∧ job ∉ b.convert) ∧
    get_importer_job_variables job = .error .gitlabGetError := by
  have hclass : get_fetcher_job_variables job = .ok none := by
    simp [get_fetcher_job_variables, h]
  refine ⟨hclass, ?_, by simp [get_importer_job_variables, h]⟩
  intro all_branches jobs b hb
  have hres := jobs_by_type_loop_ok_eq all_branches jobs empty_buckets b hb
  constructor
  · intro hmem
    rw [hres.1] at hmem
    simp only [empty_buckets, List.nil_append, List.mem_filter,
      Bool.and_eq_true, decide_eq_true_eq] at hmem
    rw [hclass] at hmem
    simp at hmem
  · intro hmem
    rw [hres.2] at hmem
    simp only [empty_buckets, List.nil_append, List.mem_filter,
      Bool.and_eq_true, decide_eq_true_eq] at hmem
    rw [hclass] at hmem
    simp at hmem

/-- C2 witness: the concrete missing-trace job classifies to `none` on the
fetcher side and raises on the importer side. -/
theorem trace_fetch_error_policy_witness :
    get_fetcher_job_variables missingTraceJob = .ok none ∧
    get_importer_job_variables missingTraceJob = .error .gitlabGetError :=
  ⟨(trace_fetch_error_policy missingTraceJob rfl).1,
   (trace_fetch_error_policy missingTraceJob rfl).2.2⟩

/-- C8: when `get_fetcher_jobs_by_type` succeeds, each bucket holds exactly
the jobs whose branch passes the filter — `ref == "master"` unless the
`--all-branches` override is set, in which case every ref passes — and
whose trace classifies to the bucket's type, in input order. -/
theorem get_fetcher_jobs_by_type_branch_policy (all_branches : Bool)
    (jobs : List Job) (b : Buckets)
    (h : get_fetcher_jobs_by_type all_branches jobs = .ok b) :
    b.download = jobs.filter (fun j =>
      (all_branches || j.ref == "master") &&
        decide (get_fetcher_job_variables j = .ok (some "download"))) ∧
    b.convert = jobs.filter (fun j =>
      (all_branches || j.ref == "master") &&
        decide (get_fetcher_job_variables j = .ok (some "convert"))) := by
  have hres := jobs_by_type_loop_ok_eq all_branches jobs empty_buckets b h
  simpa [empty_buckets] using hres

/-- A download-classified job on a non-master branch. -/
def devBranchJob : Job :=
  { sampleDownloadJob with id := 5, ref := "dev" }

/-- C8 witness: with the override off, the off-master download job is
dropped and only the master download job is bucketed. -/
theorem get_fetcher_jobs_by_type_branch_policy_witness :
    (Buckets.mk [sampleDownloadJob] []).download =
      [sampleDownloadJob, devBranchJob].filter (fun j =>
        (false || j.ref == "master") &&
          decide (get_fetcher_job_variables j = .ok (some "download"))) ∧
    (Buckets.mk [sampleDownloadJob] []).convert =
      [sampleDownloadJob, devBranchJob].filter (fun j =>
        (false || j.ref == "master") &&
          decide (get_fetcher_job_variables j = .ok (some "convert"))) :=
  get_fetcher_jobs_by_type_branch_policy false [sampleDownloadJob, devBranchJob]
    (Buckets.mk [sampleDownloadJob] []) (by decide)

/-- Helper: a considered job whose trace classifies to a type outside
download/convert makes the bucketing loop fail from any starting bucket
state. -/
theorem jobs_by_type_loop_bad_type_aborts (all_branches : Bool) (j : Job)
    (t : String) (hcons : (all_branches || j.ref == "master") = true)
    (hclass : get_fetcher_job_variables j = .ok (some t))
    (hd : t ≠ "download") (hc : t ≠ "convert") :
    ∀ jobs, j ∈ jobs → ∀ b0 b,
      jobs_by_type_loop all_branches jobs b0 ≠ .ok b := by
  intro jobs
  induction jobs with
  | nil => intro hmem; cases hmem
  | cons job jobs ih =>
    intro hmem b0 b h
    simp only [jobs_by_type_loop] at h
    by_cases hskip : (!all_branches && !(job.ref == "master")) = true
    · rw [if_pos hskip] at h
      rcases List.mem_cons.mp hmem with rfl | hmem'
      · revert hskip hcons
        cases all_branches <;> cases hr : (j.ref == "master") <;> simp [hr]
      · exact ih hmem' b0 b h
    · rw [if_neg hskip] at h
      split at h
      · exact absurd h (by simp)
      · rename_i heq
        rcases List.mem_cons.mp hmem with rfl | hmem'
        · rw [hclass] at heq
          simp at heq
        · exact ih hmem' b0 b h
      · rename_i job_type heq
        rcases List.mem_cons.mp hmem with rfl | hmem'
        · rw [hclass] at heq
          have ht' : job_type = t := by
            injection heq with h1
            injection h1 with h2
            exact h2.symm
          subst ht'
          split at h
          · exact absurd h (by simp)
          · rename_i b' hbi
            simp [bucket_insert, hd, hc] at hbi
        · split at h
          · exact absurd h (by simp)
          · rename_i b' hbi
            exact ih hmem' b' b h

/-- C10: a considered fetcher job whose single trace token is neither
`"download"` nor `"convert"` makes the whole bucketing step fail — the
two-key dict raises `KeyError` — rather than skipping or re-bucketing the
job; on the singleton job list the error is exactly `KeyError t`. -/
theorem unknown_job_type_raises_key_error (all_branches : Bool)
    (jobs : List Job) (j : Job) (t : String) (hmem : j ∈ jobs)
    (hcons : (all_branches || j.ref == "master") = true)
    (hclass : get_fetcher_job_variables j = .ok (some t))
    (hd : t ≠ "download") (hc : t ≠ "convert") :
    (∀ b, get_fetcher_jobs_by_type all_branches jobs ≠ .ok b) ∧
    get_fetcher_jobs_by_type all_branches [j] = .error (.keyError t) := by
  constructor
  · intro b
    exact jobs_by_type_loop_bad_type_aborts all_branches j t hcons hclass hd hc
      jobs hmem empty_buckets b
  · simp only [get_fetcher_jobs_by_type, jobs_by_type_loop]
    have hskip : (!all_branches && !(j.ref == "master")) = false := by
      revert hcons
      cases all_branches <;> cases hr : (j.ref == "master") <;> simp [hr]
    rw [if_neg (by simp [hskip])]
    rw [hclass]
    simp [bucket_insert, hd, hc]

/-- C10 witness: a master-branch job whose trace says
`Running job validate` aborts the bucketing with `KeyError "validate"`. -/
theorem unknown_job_type_raises_key_error_witness :
    get_fetcher_jobs_by_type false [validateJob] =
      .error (.keyError "validate") :=
  (unknown_job_type_raises_key_error false [validateJob] validateJob "validate"
    (by decide) (by decide) (by decide) (by decide) (by decide)).2

/-- C5: the enumerated fetcher list is invariant under permutations of the
raw project-name list, is always in ascending name order, and contains no
name lacking the `-fetcher` suffix nor any `dummy`-prefixed name. -/
theorem enumerate_fetchers_permutation_invariant
    (providers : Option (List String)) (names names' : List String)
    (hperm : names.Perm names') :
    enumerate_fetchers providers names = enumerate_fetchers providers names' ∧
    (enumerate_fetchers providers names).Sorted NameLe ∧
    ∀ name, (py_endswith name "-fetcher" = false ∨
        py_startswith name "dummy" = true) →
      name ∉ enumerate_fetchers providers names := by
  refine ⟨?_, ?_, ?_⟩
  · have h1 : List.insertionSort NameLe names = List.insertionSort NameLe names' :=
      List.eq_of_perm_of_sorted
        ((List.perm_insertionSort NameLe names).trans
          (hperm.trans (List.perm_insertionSort NameLe names').symm))
        (List.sorted_insertionSort NameLe names)
        (List.sorted_insertionSort NameLe names')
    unfold enumerate_fetchers
    rw [h1]
  · exact List.Pairwise.filter _ (List.sorted_insertionSort NameLe names)
  · intro name hcond hmem
    have hf := List.of_mem_filter hmem
    simp only [fetcher_name_filter, Bool.and_eq_true, Bool.not_eq_true'] at hf
    rcases hcond with hc | hc
    · rw [hf.1.1] at hc
      cases hc
    · rw [hf.1.2] at hc
      cases hc

/-- C5 witness: swapping two raw names leaves the enumerator output
unchanged. -/
theorem enumerate_fetchers_permutation_invariant_witness :
    enumerate_fetchers none ["b-fetcher", "a-fetcher"] =
      enumerate_fetchers none ["a-fetcher", "b-fetcher"] :=
  (enumerate_fetchers_permutation_invariant none
    ["b-fetcher", "a-fetcher"] ["a-fetcher", "b-fetcher"]
    (List.Perm.swap "a-fetcher" "b-fetcher" [])).1

/-- C9: the undefined-schedule marker differs from the inactive-schedule
marker; an empty job bucket renders the question marker linking to the
project jobs page, a marker distinct from all five job-status markers; the
five job-status markers are pairwise distinct; and any status outside
running/failed/stuck/canceled renders the success marker. -/
theorem render_markers_distinct (ps : PipelineSchedule)
    (hps : ps.active = false) (s : String)
    (hs : s ∉ (["running", "failed", "stuck", "canceled"] : List String))
    (base path : String) :
    schedule_i_class none ≠ schedule_i_class (some ps) ∧
    job_cell_links base path [] =
      [{ href := fetcher_jobs_url base path,
         i_classes := "fa-question-circle text-warning" }] ∧
    "fa-question-circle text-warning" ∉
      [job_i_classes "success", job_i_classes "failed",
       job_i_classes "canceled", job_i_classes "running",
       job_i_classes "stuck"] ∧
    List.Pairwise (· ≠ ·)
      [job_i_classes "success", job_i_classes "failed",
       job_i_classes "canceled", job_i_classes "running",
       job_i_classes "stuck"] ∧
    job_i_classes s = "fa-check-circle text-success" := by
  have h1 : s ≠ "running" := fun h => hs (by simp [h])
  have h2 : s ≠ "failed" := fun h => hs (by simp [h])
  have h3 : s ≠ "stuck" := fun h => hs (by simp [h])
  have h4 : s ≠ "canceled" := fun h => hs (by simp [h])
  refine ⟨?_, rfl, by decide, by decide, ?_⟩
  · simp only [schedule_i_class, hps]
    decide
  · simp [job_i_classes, h1, h2, h3, h4]

/-- C9 witness: concrete inactive schedule, empty bucket and the raw
status `"success"`. -/
theorem render_markers_distinct_witness :
    schedule_i_class none ≠
      schedule_i_class (some (PipelineSchedule.mk 7 false "n" "c")) ∧
    job_cell_links "b" "p" [] =
      [{ href := fetcher_jobs_url "b" "p",
         i_classes := "fa-question-circle text-warning" }] ∧
    "fa-question-circle text-warning" ∉
      [job_i_classes "success", job_i_classes "failed",
       job_i_classes "canceled", job_i_classes "running",
       job_i_classes "stuck"] ∧
    List.Pairwise (· ≠ ·)
      [job_i_classes "success", job_i_classes "failed",
       job_i_classes "canceled", job_i_classes "running",
       job_i_classes "stuck"] ∧
    job_i_classes "success" = "fa-check-circle text-success" :=
  render_markers_distinct (PipelineSchedule.mk 7 false "n" "c") rfl "success"
    (by decide) "b" "p"

end Dashboard
